import Mathlib

/-!
Shallow embedding of the NODEAPI-Test robot-map visualization widget.

The embedding covers the final revision of `src/app/app.component.ts`
(the meter-based-CRS version), the `RotatableMarker` class
(`rotatable-marker.ts`), and the request-building part of
`src/app/services/map.service.ts`.  Floating-point numbers are modelled
as rationals; the JavaScript remainder operator `%` is modelled by
`jsMod` below (truncated division, result carries the sign of the
dividend).
-/

/-- Truncation toward zero on rationals, as used implicitly by the
JavaScript remainder operator. -/
def jsTrunc (q : ℚ) : ℤ := if 0 ≤ q then ⌊q⌋ else ⌈q⌉

/-- JavaScript remainder `a % n`: `a - n * trunc (a / n)`. -/
def jsMod (a n : ℚ) : ℚ := a - n * (jsTrunc (a / n) : ℚ)

/-- Angle normalization `((angle % 360) + 360) % 360` from
`RotatableMarker.setRotationAngle` (rotatable-marker.ts lines 191-195). -/
def normalizeDeg (a : ℚ) : ℚ := jsMod (jsMod a 360 + 360) 360

/-- Display-local state of the robot marker: Leaflet latlng
(`x` = lng, `y` = lat) plus the internally stored CSS rotation angle. -/
structure RotatableMarker where
  x : ℚ
  y : ℚ
  angleDegrees : ℚ
deriving DecidableEq

/-- Embeds `RotatableMarker.setRotationAngle` (rotatable-marker.ts):
stores the normalized angle and refreshes the icon. -/
def RotatableMarker.setRotationAngle (m : RotatableMarker) (angle : ℚ) :
    RotatableMarker :=
  { m with angleDegrees := normalizeDeg angle }

/-- Embeds `RotatableMarker.rotate`, which delegates to
`setRotationAngle`. -/
def RotatableMarker.rotate (m : RotatableMarker) (angle : ℚ) : RotatableMarker :=
  m.setRotationAngle angle

/-- Embeds `RotatableMarker.getPose`: returns lng as x, lat as y and the
raw stored angle. -/
def RotatableMarker.getPose (m : RotatableMarker) : ℚ × ℚ × ℚ :=
  (m.x, m.y, m.angleDegrees)

/-- Map origin record `{x, y, theta, z}` (Pose25D) from the AMR state. -/
structure Pose25D where
  x : ℚ
  y : ℚ
  theta : ℚ
  z : ℚ
deriving DecidableEq

/-- `localization.map` of the AMR-state response: map resource UUID,
resolution in meters per pixel, origin and display name.  A missing
resolution field is modelled as the value 0, which the component treats
identically (the TypeScript guard is the falsiness test
`!this.resolution`). -/
structure MapInfo where
  data : String
  resolution : ℚ
  origin : Option Pose25D
  name : String
deriving DecidableEq

/-- `localization` of the AMR-state response (named `LocalizationField`
here because `Localization` already exists in the ambient library). -/
structure LocalizationField where
  map : Option MapInfo
  localized : Bool
  confidence : ℚ
deriving DecidableEq

/-- AMR-state response of `GET {base}/node-api/edge/state`. -/
structure AmrState where
  localization : Option LocalizationField
deriving DecidableEq

/-- Mutable fields of `AppComponent` that the modelled operations read or
write. -/
structure AppComponentState where
  mapId : String
  resolution : ℚ
  mapOrigin : Option Pose25D
  mapName : String
  robotMarker : Option RotatableMarker
  previousRobotX : Option ℚ
  previousRobotY : Option ℚ
  previousRobotAngle : Option ℚ
  isLocalized : Bool
  localizationConfidence : ℚ
  hasError : Bool
  errorMessage : String
deriving DecidableEq

/-- Initial field values of `AppComponent` (its field declarations). -/
def cleanState : AppComponentState :=
  { mapId := "", resolution := 0, mapOrigin := none, mapName := "",
    robotMarker := none, previousRobotX := none, previousRobotY := none,
    previousRobotAngle := none, isLocalized := false,
    localizationConfidence := 0, hasError := false, errorMessage := "" }

/-- HTTP requests the modelled map-loading code can issue. -/
inductive MapRequest where
  | getMapImage (mapId : String)
deriving DecidableEq

/-- Division that makes the division-by-zero branch explicit instead of
defaulting: `none` exactly when the divisor is zero. -/
def qdiv (a b : ℚ) : Option ℚ := if b = 0 then none else some (a / b)

/-- The `this.mapOrigin?.x || 0` access pattern of the component. -/
def originX (s : AppComponentState) : ℚ := (s.mapOrigin.map Pose25D.x).getD 0

/-- The `this.mapOrigin?.y || 0` access pattern of the component. -/
def originY (s : AppComponentState) : ℚ := (s.mapOrigin.map Pose25D.y).getD 0

/-- Embeds `metersToPixelsX` (app.component.ts lines 179-183):
`(meters - origin.x) / resolution`. -/
def metersToPixelsX (s : AppComponentState) (meters : ℚ) : Option ℚ :=
  qdiv (meters - originX s) s.resolution

/-- Embeds `metersToPixelsY` (app.component.ts lines 185-189):
`(meters - origin.y) / resolution`. -/
def metersToPixelsY (s : AppComponentState) (meters : ℚ) : Option ℚ :=
  qdiv (meters - originY s) s.resolution

/-- Embeds `pixelsToMetersX` (app.component.ts lines 191-194):
`origin.x + pixels * resolution`. -/
def pixelsToMetersX (s : AppComponentState) (pixels : ℚ) : ℚ :=
  originX s + pixels * s.resolution

/-- Embeds `pixelsToMetersY` (app.component.ts lines 196-201):
`origin.y + pixels * resolution`. -/
def pixelsToMetersY (s : AppComponentState) (pixels : ℚ) : ℚ :=
  originY s + pixels * s.resolution

/-- Robot width constant `ROBOT_WIDTH = 0.89` meters. -/
def ROBOT_WIDTH : ℚ := 89 / 100

/-- Robot length constant `ROBOT_LENGTH = 1.6` meters. -/
def ROBOT_LENGTH : ℚ := 8 / 5

/-- Embeds `calculateRobotScale` (app.component.ts lines 204-227): falls
back to scale 2 when the resolution is falsy, otherwise divides the
physical dimensions by the resolution and by the 30-pixel base size. -/
def calculateRobotScale (s : AppComponentState) : Option ℚ :=
  if s.resolution = 0 then some 2
  else do
    let robotWidthPixels ← qdiv ROBOT_WIDTH s.resolution
    let robotLengthPixels ← qdiv ROBOT_LENGTH s.resolution
    let maxDimension := max robotWidthPixels robotLengthPixels
    let scale ← qdiv maxDimension 30
    some (max scale (1 / 2))

/-- Embeds the `metersScale = 1 / this.resolution` computation of
`initMap` (app.component.ts lines 138-151), which is guarded by an early
return when the resolution is falsy. -/
def initMapMetersScale (s : AppComponentState) : Option ℚ :=
  if s.resolution = 0 then none else qdiv 1 s.resolution

/-- Embeds the synchronous part of `loadMapImage` (app.component.ts
lines 99-131): the guard returns are taken before the image request is
issued, and neither guard writes the user-visible error fields; the
second component lists the issued requests, the third the console-error
lines. -/
def loadMapImage (s : AppComponentState) :
    AppComponentState × List MapRequest × List String :=
  if s.mapId = "" then (s, [], ["No map ID available"])
  else if s.resolution = 0 then (s, [], ["No map resolution available"])
  else (s, [MapRequest.getMapImage s.mapId], [])

/-- Embeds the success branch of `ngOnInit` (app.component.ts lines
42-90): validates the AMR state, stores the map fields, then calls
`loadMapImage`. -/
def receiveAmrState (s : AppComponentState) (amr : AmrState) :
    AppComponentState × List MapRequest × List String :=
  match amr.localization with
  | none =>
      ({ s with hasError := true,
                errorMessage := "No localization data available from AMR" },
       [], ["No localization data in AMR State"])
  | some loc =>
      match loc.map with
      | none =>
          ({ s with hasError := true,
                    errorMessage := "No map data available in localization" },
           [], ["No map data in localization"])
      | some mapInfo =>
          let s1 : AppComponentState :=
            { s with mapId := mapInfo.data, resolution := mapInfo.resolution,
                     mapOrigin := mapInfo.origin, mapName := mapInfo.name,
                     isLocalized := loc.localized,
                     localizationConfidence := loc.confidence }
          loadMapImage s1

/-- Embeds the error branch of `ngOnInit` (app.component.ts lines
91-95). -/
def ngOnInitError (s : AppComponentState) : AppComponentState :=
  { s with hasError := true,
           errorMessage := "Failed to fetch AMR State from server. Please check if the AMR service is running at http://192.168.1.81" }

/-- Embeds the error branch of `loadMapImage`'s subscription
(app.component.ts lines 125-129). -/
def loadMapImageError (s : AppComponentState) : AppComponentState :=
  { s with hasError := true,
           errorMessage := "Failed to load map image from server. Map ID: " ++ s.mapId }

/-- Embeds `hasSignificantChange` (app.component.ts lines 488-491):
true on the first write, and otherwise when the absolute delta strictly
exceeds the tolerance. -/
def hasSignificantChange (oldValue : Option ℚ) (newValue tolerance : ℚ) :
    Bool :=
  match oldValue with
  | none => true
  | some v => decide (|v - newValue| > tolerance)

/-- Embeds `updateRobotPosition` (app.component.ts lines 496-532): skips
the update entirely when neither the position (1 mm tolerance per axis)
nor the rotation (0.1 degree tolerance) changed significantly; otherwise
moves and/or rotates the marker and refreshes the tracked previous
values. -/
def updateRobotPosition (s : AppComponentState)
    (xMeters yMeters angleDegrees : ℚ) : AppComponentState :=
  match s.robotMarker with
  | none => s
  | some m =>
      let positionChanged :=
        hasSignificantChange s.previousRobotX xMeters (1 / 1000) ||
        hasSignificantChange s.previousRobotY yMeters (1 / 1000)
      let rotationChanged :=
        hasSignificantChange s.previousRobotAngle angleDegrees (1 / 10)
      if !positionChanged && !rotationChanged then s
      else
        let m1 := if positionChanged then
            { m with x := xMeters, y := yMeters } else m
        let m2 := if rotationChanged then m1.rotate angleDegrees else m1
        { s with robotMarker := some m2,
                 previousRobotX :=
                   if positionChanged then some xMeters else s.previousRobotX,
                 previousRobotY :=
                   if positionChanged then some yMeters else s.previousRobotY,
                 previousRobotAngle :=
                   if rotationChanged then some angleDegrees
                   else s.previousRobotAngle }

/-- Metric pose returned by `getRobotPose`. -/
structure RobotPose where
  x : ℚ
  y : ℚ
  angle : ℚ
deriving DecidableEq

/-- Embeds `getRobotPose` (app.component.ts lines 544-565): the marker
coordinates are already in meters under the meter-based CRS, and the
stored angle is flipped via `(360 - pose.angle) % 360`. -/
def getRobotPose (s : AppComponentState) : Option RobotPose :=
  s.robotMarker.map fun m =>
    { x := m.x, y := m.y, angle := jsMod (360 - m.angleDegrees) 360 }

/-- A request issued by the map service, with the PUT body fields. -/
structure LocalizationRequest where
  method : String
  url : String
  x : ℚ
  y : ℚ
  theta : ℚ
deriving DecidableEq

/-- Base URL of the map service (map.service.ts line 10). -/
def apiUrl : String := "http://100.79.47.58"

/-- Embeds `MapService.initializeLocalization` (map.service.ts lines
70-83): one HTTP PUT to the localization-initialize endpoint with body
`{x, y, theta}`. -/
def serviceInitLocalization (x y theta : ℚ) : LocalizationRequest :=
  { method := "PUT",
    url := apiUrl ++ "/node-api/edge/localization/initialize",
    x := x, y := y, theta := theta }

/-- Embeds the request-building part of the component's
`initializeLocalization` (app.component.ts lines 659-676): reads the
marker pose, converts the angle to radians as `angle * Math.PI / 180`
(the rational `piVal` stands for the numeric value of `Math.PI`), and
issues the service request; with no marker pose it only alerts and
issues nothing. -/
def initLocalization (piVal : ℚ) (s : AppComponentState) :
    List LocalizationRequest :=
  match getRobotPose s with
  | none => []
  | some pose =>
      [serviceInitLocalization pose.x pose.y (pose.angle * piVal / 180)]

/-- Error object of a failed localization request: HTTP status plus the
optional `error.error_details` field. -/
structure HttpError where
  status : ℤ
  errorDetails : Option String
deriving DecidableEq

/-- Embeds the status-to-message mapping of the error branch of
`initializeLocalization` (app.component.ts lines 684-699). -/
def localizationErrorMessage (e : HttpError) : String :=
  if e.status = 403 then "Forbidden: Check API permissions or authentication."
  else if e.status = 404 then "API endpoint not found. Check server configuration."
  else if e.status = 422 then "Validation error: Invalid position data."
  else
    match e.errorDetails with
    | some d => "Error: " ++ d
    | none => "Failed to initialize localization."

/-- Embeds the error branch of `initializeLocalization` as a state
transformer: the branch only shows an alert containing the mapped
message and performs no state write. -/
def initLocalizationError (s : AppComponentState) (e : HttpError) :
    AppComponentState × String :=
  (s, localizationErrorMessage e)

/-! ### Arithmetic lemmas about the JavaScript remainder -/

lemma jsTrunc_of_nonneg {q : ℚ} (h : 0 ≤ q) : jsTrunc q = ⌊q⌋ := by
  simp [jsTrunc, h]

lemma jsTrunc_of_neg {q : ℚ} (h : q < 0) : jsTrunc q = ⌈q⌉ := by
  simp [jsTrunc, not_le.mpr h]

lemma jsMod_nonneg {a n : ℚ} (hn : 0 < n) (ha : 0 ≤ a) : 0 ≤ jsMod a n := by
  have hq : (0 : ℚ) ≤ a / n := div_nonneg ha hn.le
  rw [jsMod, jsTrunc_of_nonneg hq]
  have h1 : (⌊a / n⌋ : ℚ) ≤ a / n := Int.floor_le _
  have h2 : n * (⌊a / n⌋ : ℚ) ≤ n * (a / n) :=
    mul_le_mul_of_nonneg_left h1 hn.le
  have h3 : n * (a / n) = a := by field_simp
  linarith

lemma jsMod_lt {a n : ℚ} (hn : 0 < n) : jsMod a n < n := by
  rcases le_or_lt 0 a with ha | ha
  · have hq : (0 : ℚ) ≤ a / n := div_nonneg ha hn.le
    rw [jsMod, jsTrunc_of_nonneg hq]
    have h1 : a / n < (⌊a / n⌋ : ℚ) + 1 := Int.lt_floor_add_one _
    have h2 : n * (a / n) < n * ((⌊a / n⌋ : ℚ) + 1) := by
      exact mul_lt_mul_of_pos_left h1 hn
    have h3 : n * (a / n) = a := by field_simp
    nlinarith
  · have hq : a / n < 0 := div_neg_of_neg_of_pos ha hn
    rw [jsMod, jsTrunc_of_neg hq]
    have h1 : a / n ≤ (⌈a / n⌉ : ℚ) := Int.le_ceil _
    have h2 : n * (a / n) ≤ n * (⌈a / n⌉ : ℚ) :=
      mul_le_mul_of_nonneg_left h1 hn.le
    have h3 : n * (a / n) = a := by field_simp
    linarith

lemma neg_lt_jsMod {a n : ℚ} (hn : 0 < n) : -n < jsMod a n := by
  rcases le_or_lt 0 a with ha | ha
  · have := jsMod_nonneg hn ha
    linarith
  · have hq : a / n < 0 := div_neg_of_neg_of_pos ha hn
    rw [jsMod, jsTrunc_of_neg hq]
    have h1 : (⌈a / n⌉ : ℚ) < a / n + 1 := Int.ceil_lt_add_one _
    have h2 : n * (⌈a / n⌉ : ℚ) < n * (a / n + 1) :=
      mul_lt_mul_of_pos_left h1 hn
    have h3 : n * (a / n) = a := by field_simp
    nlinarith

lemma jsMod_eq_self {a n : ℚ} (hn : 0 < n) (h0 : 0 ≤ a) (h1 : a < n) :
    jsMod a n = a := by
  have hq : (0 : ℚ) ≤ a / n := div_nonneg h0 hn.le
  have hq1 : a / n < 1 := (div_lt_one hn).mpr h1
  rw [jsMod, jsTrunc_of_nonneg hq]
  have : ⌊a / n⌋ = 0 := Int.floor_eq_zero_iff.mpr ⟨hq, hq1⟩
  rw [this]
  push_cast
  ring

lemma jsMod_self {n : ℚ} (hn : 0 < n) : jsMod n n = 0 := by
  rw [jsMod, div_self hn.ne.symm, jsTrunc_of_nonneg (by norm_num : (0:ℚ) ≤ 1)]
  simp

lemma normalizeDeg_nonneg (a : ℚ) : 0 ≤ normalizeDeg a := by
  have h360 : (0 : ℚ) < 360 := by norm_num
  have h1 : -360 < jsMod a 360 := neg_lt_jsMod h360
  exact jsMod_nonneg h360 (by linarith)

lemma normalizeDeg_lt (a : ℚ) : normalizeDeg a < 360 :=
  jsMod_lt (by norm_num)

lemma flip_of_range {n : ℚ} (h0 : 0 ≤ n) (h1 : n < 360) :
    jsMod (360 - n) 360 = if n = 0 then 0 else 360 - n := by
  by_cases hn : n = 0
  · rw [if_pos hn, hn, sub_zero]
    exact jsMod_self (by norm_num)
  · rw [if_neg hn]
    have hpos : 0 < n := lt_of_le_of_ne h0 (Ne.symm hn)
    exact jsMod_eq_self (by norm_num) (by linarith) (by linarith)

lemma flip_fixed_iff (a : ℚ) :
    jsMod (360 - normalizeDeg a) 360 = normalizeDeg a ↔
      normalizeDeg a = 0 ∨ normalizeDeg a = 180 := by
  have h0 := normalizeDeg_nonneg a
  have h1 := normalizeDeg_lt a
  rw [flip_of_range h0 h1]
  by_cases hn : normalizeDeg a = 0
  · simp [hn]
  · rw [if_neg hn]
    constructor
    · intro he
      right
      linarith
    · rintro (he | he)
      · exact absurd he hn
      · rw [he]
        norm_num

lemma hasSig_false {v x tol : ℚ} (h : |v - x| ≤ tol) :
    hasSignificantChange (some v) x tol = false := by
  simp only [hasSignificantChange, decide_eq_false_iff_not]
  exact not_lt.mpr h

lemma hasSig_true {v x tol : ℚ} (h : tol < |v - x|) :
    hasSignificantChange (some v) x tol = true := by
  simp only [hasSignificantChange, decide_eq_true_eq]
  exact h

lemma metersToPixelsX_isSome {s : AppComponentState}
    (h : s.resolution ≠ 0) (m : ℚ) : (metersToPixelsX s m).isSome := by
  simp [metersToPixelsX, qdiv, h]

lemma metersToPixelsY_isSome {s : AppComponentState}
    (h : s.resolution ≠ 0) (m : ℚ) : (metersToPixelsY s m).isSome := by
  simp [metersToPixelsY, qdiv, h]

lemma calculateRobotScale_isSome (s : AppComponentState) :
    (calculateRobotScale s).isSome := by
  by_cases h : s.resolution = 0
  · simp [calculateRobotScale, h]
  · simp [calculateRobotScale, h, qdiv]

lemma initMapMetersScale_isSome {s : AppComponentState}
    (h : s.resolution ≠ 0) : (initMapMetersScale s).isSome := by
  simp [initMapMetersScale, qdiv, h]

lemma loadMapImage_request_res {s : AppComponentState}
    (h : (loadMapImage s).2.1 ≠ []) :
    s.resolution ≠ 0 ∧ (loadMapImage s).1 = s := by
  by_cases hid : s.mapId = ""
  · simp [loadMapImage, hid] at h
  · by_cases hres : s.resolution = 0
    · simp [loadMapImage, hid, hres] at h
    · exact ⟨hres, by simp [loadMapImage, hid, hres]⟩

/-! ### Witness data -/

/-- Concrete component state used by witnesses: the spec's example frame
(resolution 0.05, origin (-70.4, -64.0)) with a marker at (3, 4) rotated
to 90 degrees and matching tracked previous values. -/
def wState : AppComponentState :=
  { mapId := "map-1", resolution := 1 / 20,
    mapOrigin := some { x := -352 / 5, y := -64, theta := 0, z := 0 },
    mapName := "Warehouse",
    robotMarker := some { x := 3, y := 4, angleDegrees := 90 },
    previousRobotX := some 3, previousRobotY := some 4,
    previousRobotAngle := some 90, isLocalized := true,
    localizationConfidence := 1, hasError := false, errorMessage := "" }

/-- Concrete AMR state with a valid map record. -/
def wAmr : AmrState :=
  ⟨some ⟨some ⟨"map-1", 1 / 20, some ⟨-352 / 5, -64, 0, 0⟩, "Warehouse"⟩,
    true, 1⟩⟩

/-- Concrete AMR state whose map record has resolution 0 (the modelled
value of a missing resolution). -/
def wAmrNoRes : AmrState :=
  ⟨some ⟨some ⟨"map-1", 0, none, "Warehouse"⟩, true, 1⟩⟩

/-- Concrete AMR state whose map record has an empty map identifier. -/
def wAmrNoId : AmrState :=
  ⟨some ⟨some ⟨"", 1 / 20, none, "Warehouse"⟩, true, 1⟩⟩

/-- Component state with a map id but without a resolution. -/
def wStateNoRes : AppComponentState := { cleanState with mapId := "map-1" }

/-! ### Claim theorems -/

/-- C1: for every positive resolution and any origin the metric to
display-local conversions are exact inverses in rational arithmetic:
`pixelsToMetersX (metersToPixelsX m) = m` and likewise for Y. -/
theorem metersPixels_roundtrip (s : AppComponentState) (m : ℚ)
    (hres : 0 < s.resolution) :
    (metersToPixelsX s m).map (pixelsToMetersX s) = some m ∧
    (metersToPixelsY s m).map (pixelsToMetersY s) = some m := by
  have hne : s.resolution ≠ 0 := hres.ne.symm
  constructor
  · unfold metersToPixelsX qdiv
    rw [if_neg hne]
    unfold pixelsToMetersX
    simp only [Option.map_some', Option.some.injEq]
    rw [div_mul_cancel₀ _ hne]
    ring
  · unfold metersToPixelsY qdiv
    rw [if_neg hne]
    unfold pixelsToMetersY
    simp only [Option.map_some', Option.some.injEq]
    rw [div_mul_cancel₀ _ hne]
    ring

/-- Witness for C1 at the spec's example frame and metric x = 2. -/
theorem metersPixels_roundtrip_witness :
    (metersToPixelsX wState 2).map (pixelsToMetersX wState) = some 2 ∧
    (metersToPixelsY wState 2).map (pixelsToMetersY wState) = some 2 :=
  metersPixels_roundtrip wState 2 (by norm_num [wState])

/-- C3: every write to the marker's stored rotation normalizes it into
[0, 360): both `setRotationAngle` and `rotate` (the only writers of
`angleDegrees`) yield a stored value in that range for every rational
input angle. -/
theorem setRotationAngle_normalizes (m : RotatableMarker) (a : ℚ) :
    (0 ≤ (m.setRotationAngle a).angleDegrees ∧
      (m.setRotationAngle a).angleDegrees < 360) ∧
    (0 ≤ (m.rotate a).angleDegrees ∧ (m.rotate a).angleDegrees < 360) :=
  ⟨⟨normalizeDeg_nonneg a, normalizeDeg_lt a⟩,
   ⟨normalizeDeg_nonneg a, normalizeDeg_lt a⟩⟩

/-- C6: with a map id present but the resolution missing (modelled as 0),
`loadMapImage` takes the "No map resolution available" error path and
returns before issuing the map-image request. -/
theorem loadMapImage_halts_without_resolution (s : AppComponentState)
    (hid : s.mapId ≠ "") (hres : s.resolution = 0) :
    loadMapImage s = (s, [], ["No map resolution available"]) := by
  simp [loadMapImage, hid, hres]

/-- Witness for C6. -/
theorem loadMapImage_halts_without_resolution_witness :
    loadMapImage wStateNoRes =
      (wStateNoRes, [], ["No map resolution available"]) :=
  loadMapImage_halts_without_resolution wStateNoRes (by decide) rfl

/-- C9: `getRobotPose` applies the documented sign flip to the stored
marker angle: for a stored angle in [0, 360) it returns
`(360 - raw) % 360` (JavaScript remainder), itself in [0, 360). -/
theorem getRobotPose_flip (s : AppComponentState) (m : RotatableMarker)
    (hm : s.robotMarker = some m) (h0 : 0 ≤ m.angleDegrees)
    (h1 : m.angleDegrees < 360) :
    getRobotPose s =
      some { x := m.x, y := m.y,
             angle := jsMod (360 - m.angleDegrees) 360 } ∧
    0 ≤ jsMod (360 - m.angleDegrees) 360 ∧
    jsMod (360 - m.angleDegrees) 360 < 360 := by
  refine ⟨by simp [getRobotPose, hm], ?_, jsMod_lt (by norm_num)⟩
  exact jsMod_nonneg (by norm_num) (by linarith)

/-- Witness for C9 at the stored angle 90. -/
theorem getRobotPose_flip_witness :
    getRobotPose wState =
      some { x := 3, y := 4, angle := jsMod (360 - 90) 360 } ∧
    0 ≤ jsMod (360 - 90) 360 ∧ jsMod (360 - 90) 360 < 360 :=
  getRobotPose_flip wState { x := 3, y := 4, angleDegrees := 90 } rfl
    (by norm_num) (by norm_num)

/-- C2: with a previously tracked pose, deltas of at most 1 mm per axis
and at most 0.1 degrees leave the marker (indeed the whole component
state) untouched; in particular an x-delta of 0.0005 m does not trigger
a marker position update while an x-delta of 0.002 m does. -/
theorem pushPose_tolerance (s : AppComponentState) (m : RotatableMarker)
    (px py pa x y a : ℚ) (hm : s.robotMarker = some m)
    (hpx : s.previousRobotX = some px) (hpy : s.previousRobotY = some py)
    (hpa : s.previousRobotAngle = some pa)
    (h1 : |px - x| ≤ 1 / 1000) (h2 : |py - y| ≤ 1 / 1000)
    (h3 : |pa - a| ≤ 1 / 10) :
    updateRobotPosition s x y a = s ∧
    updateRobotPosition s (px + 1 / 2000) py pa = s ∧
    (updateRobotPosition s (px + 1 / 500) py pa).robotMarker =
      some { m with x := px + 1 / 500, y := py } := by
  have dx2 : |px - (px + 1 / 2000)| ≤ 1 / 1000 := by
    rw [show px - (px + 1 / 2000) = -(1 / 2000) by ring, abs_neg,
      abs_of_nonneg (by norm_num : (0:ℚ) ≤ 1 / 2000)]
    norm_num
  have dx5 : (1 : ℚ) / 1000 < |px - (px + 1 / 500)| := by
    rw [show px - (px + 1 / 500) = -(1 / 500) by ring, abs_neg,
      abs_of_nonneg (by norm_num : (0:ℚ) ≤ 1 / 500)]
    norm_num
  have d0y : |py - py| ≤ 1 / 1000 := by simp
  have d0a : |pa - pa| ≤ 1 / 10 := by simp
  refine ⟨?_, ?_, ?_⟩
  · simp only [updateRobotPosition, hm, hpx, hpy, hpa]
    rw [hasSig_false h1, hasSig_false h2, hasSig_false h3]
    simp
  · simp only [updateRobotPosition, hm, hpx, hpy, hpa]
    rw [hasSig_false dx2, hasSig_false d0y, hasSig_false d0a]
    simp
  · simp only [updateRobotPosition, hm, hpx, hpy, hpa]
    rw [hasSig_true dx5, hasSig_false d0y, hasSig_false d0a]
    simp

/-- Witness for C2 at the concrete tracked pose (3, 4, 90°). -/
theorem pushPose_tolerance_witness :
    updateRobotPosition wState 3 4 90 = wState ∧
    updateRobotPosition wState (3 + 1 / 2000) 4 90 = wState ∧
    (updateRobotPosition wState (3 + 1 / 500) 4 90).robotMarker =
      some { x := 3 + 1 / 500, y := 4, angleDegrees := 90 } :=
  pushPose_tolerance wState { x := 3, y := 4, angleDegrees := 90 }
    3 4 90 3 4 90 rfl rfl rfl rfl (by norm_num) (by norm_num) (by norm_num)

/-- C4: a localization-commit failure with HTTP status 422 surfaces a
message containing "Validation error", distinct from the 403 and 404
messages, and the error path performs no write: the marker and the pose
read from it are unchanged. -/
theorem commit422_validation_error (s : AppComponentState) (e : HttpError)
    (h : e.status = 422) :
    (∃ t, (initLocalizationError s e).2 = "Validation error" ++ t) ∧
    (initLocalizationError s e).2 ≠
      localizationErrorMessage { status := 403, errorDetails := e.errorDetails } ∧
    (initLocalizationError s e).2 ≠
      localizationErrorMessage { status := 404, errorDetails := e.errorDetails } ∧
    (initLocalizationError s e).1.robotMarker = s.robotMarker ∧
    getRobotPose (initLocalizationError s e).1 = getRobotPose s := by
  have hmsg : (initLocalizationError s e).2 =
      "Validation error: Invalid position data." := by
    simp [initLocalizationError, localizationErrorMessage, h]
  refine ⟨⟨": Invalid position data.", by rw [hmsg]; rfl⟩, ?_, ?_, rfl, rfl⟩
  · rw [hmsg]
    simp only [localizationErrorMessage]
    norm_num
    decide
  · rw [hmsg]
    simp only [localizationErrorMessage]
    norm_num
    decide

/-- Witness for C4 at a 422 error without details. -/
theorem commit422_validation_error_witness :
    (∃ t, (initLocalizationError wState { status := 422, errorDetails := none }).2 =
      "Validation error" ++ t) ∧
    (initLocalizationError wState { status := 422, errorDetails := none }).2 ≠
      localizationErrorMessage { status := 403, errorDetails := none } ∧
    (initLocalizationError wState { status := 422, errorDetails := none }).2 ≠
      localizationErrorMessage { status := 404, errorDetails := none } ∧
    (initLocalizationError wState { status := 422, errorDetails := none }).1.robotMarker =
      wState.robotMarker ∧
    getRobotPose (initLocalizationError wState { status := 422, errorDetails := none }).1 =
      getRobotPose wState :=
  commit422_validation_error wState { status := 422, errorDetails := none } rfl

/-- C5 (counterexample to the user-visible reporting requirement): with a
well-formed AMR state whose map record lacks a resolution — and likewise
one whose map identifier is empty — the load path only emits a console
line; `hasError` stays false and `errorMessage` stays empty, so no
user-visible error state is produced. -/
theorem missing_fields_only_logged :
    (receiveAmrState cleanState wAmrNoRes).1.hasError = false ∧
    (receiveAmrState cleanState wAmrNoRes).1.errorMessage = "" ∧
    (receiveAmrState cleanState wAmrNoRes).2.2 =
      ["No map resolution available"] ∧
    (receiveAmrState cleanState wAmrNoRes).2.1 = [] ∧
    (receiveAmrState cleanState wAmrNoId).1.hasError = false ∧
    (receiveAmrState cleanState wAmrNoId).1.errorMessage = "" ∧
    (receiveAmrState cleanState wAmrNoId).2.2 = ["No map ID available"] := by
  refine ⟨rfl, rfl, ?_, ?_, rfl, rfl, ?_⟩ <;> decide

/-- C7: committing the pose reads the marker pose through
`getRobotPose`, converts the angle to radians as `angle * pi / 180`, and
issues exactly one HTTP PUT to
`{base}/node-api/edge/localization/initialize` with body `{x, y, theta}`
carrying the pose's metric coordinates. -/
theorem commit_sends_one_put (piVal : ℚ) (s : AppComponentState)
    (m : RotatableMarker) (hm : s.robotMarker = some m) :
    initLocalization piVal s =
      [{ method := "PUT",
         url := apiUrl ++ "/node-api/edge/localization/initialize",
         x := m.x, y := m.y,
         theta := jsMod (360 - m.angleDegrees) 360 * piVal / 180 }] ∧
    getRobotPose s =
      some { x := m.x, y := m.y,
             angle := jsMod (360 - m.angleDegrees) 360 } := by
  constructor
  · simp [initLocalization, getRobotPose, hm, serviceInitLocalization]
  · simp [getRobotPose, hm]

/-- Witness for C7 with a rational stand-in for `Math.PI`. -/
theorem commit_sends_one_put_witness :
    initLocalization (314159 / 100000) wState =
      [{ method := "PUT",
         url := apiUrl ++ "/node-api/edge/localization/initialize",
         x := 3, y := 4,
         theta := jsMod (360 - 90) 360 * (314159 / 100000) / 180 }] ∧
    getRobotPose wState =
      some { x := 3, y := 4, angle := jsMod (360 - 90) 360 } :=
  commit_sends_one_put (314159 / 100000) wState
    { x := 3, y := 4, angleDegrees := 90 } rfl

/-- C8: the map-image request — the gate behind which `initMap`,
`displayMapImage` and the robot-marker code run — is issued only when
the stored resolution is non-zero, so every division by the resolution
in the conversions, the marker-scale computation and the CRS scale is
reached with a non-zero divisor (this includes a negative resolution,
which the frame invariant forbids but which still cannot divide by
zero); `calculateRobotScale` additionally guards itself. -/
theorem resolution_guard (s : AppComponentState) (amr : AmrState)
    (h : (receiveAmrState s amr).2.1 ≠ []) :
    (receiveAmrState s amr).1.resolution ≠ 0 ∧
    (∀ m : ℚ, (metersToPixelsX (receiveAmrState s amr).1 m).isSome ∧
              (metersToPixelsY (receiveAmrState s amr).1 m).isSome) ∧
    (calculateRobotScale (receiveAmrState s amr).1).isSome ∧
    (initMapMetersScale (receiveAmrState s amr).1).isSome := by
  have main : (receiveAmrState s amr).1.resolution ≠ 0 := by
    rcases amr with ⟨_ | ⟨_ | mi, lz, conf⟩⟩
    · simp [receiveAmrState] at h
    · simp [receiveAmrState] at h
    · simp only [receiveAmrState] at h ⊢
      obtain ⟨hres, heq⟩ := loadMapImage_request_res h
      rw [heq]
      exact hres
  exact ⟨main,
    fun m => ⟨metersToPixelsX_isSome main m, metersToPixelsY_isSome main m⟩,
    calculateRobotScale_isSome _, initMapMetersScale_isSome main⟩

/-- Witness for C8 at a concrete AMR response with resolution 0.05. -/
theorem resolution_guard_witness :
    (receiveAmrState cleanState wAmr).2.1 ≠ [] ∧
    (receiveAmrState cleanState wAmr).1.resolution ≠ 0 ∧
    (metersToPixelsX (receiveAmrState cleanState wAmr).1 2).isSome ∧
    (metersToPixelsY (receiveAmrState cleanState wAmr).1 2).isSome ∧
    (calculateRobotScale (receiveAmrState cleanState wAmr).1).isSome ∧
    (initMapMetersScale (receiveAmrState cleanState wAmr).1).isSome := by
  have hne : (receiveAmrState cleanState wAmr).2.1 ≠ [] := by
    norm_num [receiveAmrState, wAmr, cleanState, loadMapImage]
    decide
  obtain ⟨g1, g2, g3, g4⟩ := resolution_guard cleanState wAmr hne
  exact ⟨hne, g1, (g2 2).1, (g2 2).2, g3, g4⟩

/-- C10: the set-then-get angle round-trip is a reflection, not the
identity: `updateRobotPosition` hands the angle to the marker unflipped
(the marker normalizes it) while `getRobotPose` flips it, so the
returned angle is `(360 - (((a % 360) + 360) % 360)) % 360`, which
equals the normalized input exactly when that normal form is 0 or
180. -/
theorem setThenGet_reflection (s : AppComponentState) (m : RotatableMarker)
    (x y a : ℚ) (hm : s.robotMarker = some m)
    (hrot : hasSignificantChange s.previousRobotAngle a (1 / 10) = true) :
    (getRobotPose (updateRobotPosition s x y a)).map RobotPose.angle =
      some (jsMod (360 - normalizeDeg a) 360) ∧
    (jsMod (360 - normalizeDeg a) 360 = normalizeDeg a ↔
      normalizeDeg a = 0 ∨ normalizeDeg a = 180) := by
  refine ⟨?_, flip_fixed_iff a⟩
  simp only [updateRobotPosition, hm, hrot]
  cases hb1 : hasSignificantChange s.previousRobotX x (1 / 1000) <;>
    cases hb2 : hasSignificantChange s.previousRobotY y (1 / 1000) <;>
      simp [getRobotPose, RotatableMarker.rotate,
        RotatableMarker.setRotationAngle]

/-- Witness for C10 at the tracked pose (3, 4, 90°) and input angle
45°. -/
theorem setThenGet_reflection_witness :
    (getRobotPose (updateRobotPosition wState 3 4 45)).map RobotPose.angle =
      some (jsMod (360 - normalizeDeg 45) 360) ∧
    (jsMod (360 - normalizeDeg 45) 360 = normalizeDeg 45 ↔
      normalizeDeg 45 = 0 ∨ normalizeDeg 45 = 180) :=
  setThenGet_reflection wState { x := 3, y := 4, angleDegrees := 90 }
    3 4 45 rfl
    (hasSig_true (by
      rw [show (90 : ℚ) - 45 = 45 by norm_num,
        abs_of_nonneg (by norm_num : (0 : ℚ) ≤ 45)]
      norm_num))
